import Mathlib

/-!
Shallow embedding of `src/apps/wallet/src/ui/app/staking/stake/StakingCard.tsx`:
the staking / unstaking submission flow of the wallet.  The component reads its
inputs (coin type, validator address, stake id, mode flag) from the route, runs
two react-query mutations (`stakeToken`, `unStakeToken`) whose mutation
functions sign and broadcast a transaction, and on success invalidates two
cache keys, resets the form and navigates to the receipt view.

JavaScript nullable strings are embedded as `Option String`; JS truthiness of
such a value (`null` and `""` are falsy) is `jsTruthy`.  The outcome of the
signer's `signAndExecuteTransaction` call is a parameter of type
`Except String String`: `.error msg` for a rejection with message `msg`,
`.ok d` for a response whose transaction digest is `d`.
-/

/-- Status of a delegated stake position (`stakeData.status`), one of
`Pending` or `Active` per the data model. -/
inductive StakeStatus
  | Pending
  | Active
  deriving DecidableEq, Repr

/-- The delegation record returned by `getDelegationDataByStakeId` for the
`staked` route parameter: status, the staked-Sui object id and the estimated
reward (`stakeData?.estimatedReward || 0`). -/
structure DelegationData where
  status : StakeStatus
  stakedSuiId : String
  estimatedReward : Nat
  deriving DecidableEq, Repr

/-- The inputs of one render/submission cycle of `StakingCard`:
`coinType` (the `SUI_TYPE_ARG` constant, nullable in the guards),
`validatorAddress` (`searchParams.get('address')`),
`stakeSuiIdParams` (`searchParams.get('staked')`),
`unstake` (`searchParams.get('unstake') === 'true'`),
`stakeData` (delegation record for `stakeSuiIdParams`),
`coinDecimals` (from `useCoinDecimals`), and
`signer` (whether `useSigner` produced a signer). -/
structure StakingContext where
  coinType : Option String
  validatorAddress : Option String
  stakeSuiIdParams : Option String
  unstake : Bool
  stakeData : Option DelegationData
  coinDecimals : Nat
  signer : Bool
  deriving DecidableEq, Repr

/-- JS truthiness of a nullable string: `null` and `""` are falsy. -/
def jsTruthy : Option String → Bool
  | none => false
  | some s => s != ""

/-- Value of a decimal digit character, `none` for a non-digit. -/
def digitVal? (c : Char) : Option Nat :=
  if c.isDigit then some (c.toNat - 48) else none

/-- Accumulate the value of a digit string; `none` on a non-digit. -/
def digitsToNatAux : List Char → Nat → Option Nat
  | [], acc => some acc
  | c :: cs, acc =>
    match digitVal? c with
    | some d => digitsToNatAux cs (acc * 10 + d)
    | none => none

/-- Value of a non-empty digit string, `none` otherwise. -/
def digitsToNat? (cs : List Char) : Option Nat :=
  match cs with
  | [] => none
  | _ => digitsToNatAux cs 0

/-- Split a character list at the single decimal point; `none` when more than
one point occurs. -/
def splitDot : List Char → Option (List Char × Option (List Char))
  | [] => some ([], none)
  | c :: cs =>
    if c = '.' then
      if cs.contains '.' then none else some ([], some cs)
    else
      match splitDot cs with
      | some (intPart, frac) => some (c :: intPart, frac)
      | none => none

/-- Modelled from the spec: `parseAmount` is imported from `_helpers`, which is
not under `src/`.  Per the spec a `FormAmount` is "a decimal string ... must be
convertible to an integer count of smallest-unit tokens using the coin's
decimal precision; invalid or overflowing input is a validation failure, not a
crash", so the model is total and yields 0 on malformed input. -/
def parseAmount (amount : String) (decimals : Nat) : Nat :=
  match splitDot amount.toList with
  | none => 0
  | some (intPart, none) =>
    match digitsToNat? intPart with
    | some n => n * 10 ^ decimals
    | none => 0
  | some (intPart, some fracPart) =>
    match digitsToNat? intPart, digitsToNat? fracPart with
    | some n, some f =>
      if fracPart.length ≤ decimals then
        n * 10 ^ decimals + f * 10 ^ (decimals - fracPart.length)
      else 0
    | _, _ => 0

/-- Source line 91: `const minimumStake = parseAmount('1', coinDecimals)`
("set minimum stake amount to 1 SUI"). -/
def minimumStake (coinDecimals : Nat) : Nat :=
  parseAmount "1" coinDecimals

/-- The request handed to `createStakeTransaction` / `createUnstakeTransaction`
and then to the signer: one constructor per transaction variant. -/
inductive TxRequest
  | stake (amount : Nat) (tokenTypeArg : String) (validatorAddress : String)
  | unstakeTx (stakedSuiId : String)
  deriving DecidableEq, Repr

deriving instance DecidableEq for Except

/-- What one mutation-function call did: the sign-and-broadcast requests it
issued and its result (digest on success, error message on rejection). -/
structure MutationOutcome where
  broadcasts : List TxRequest
  result : Except String String
  deriving DecidableEq, Repr

/-- Mutation function of `stakeToken` (lines 114-151): throws
`'Failed, missing required field'` when any of `validatorAddress`, `amount`,
`tokenTypeArg`, `signer` is falsy, before building or broadcasting anything;
otherwise builds the stake transaction and signs-and-executes it. -/
def stakeTokenMutationFn (tokenTypeArg : String) (amount : Nat)
    (validatorAddress : String) (signer : Bool)
    (signOutcome : Except String String) : MutationOutcome :=
  if validatorAddress = "" ∨ amount = 0 ∨ tokenTypeArg = "" ∨ signer = false then
    ⟨[], Except.error "Failed, missing required field"⟩
  else
    ⟨[TxRequest.stake amount tokenTypeArg validatorAddress], signOutcome⟩

/-- Mutation function of `unStakeToken` (lines 153-179): throws
`'Failed, missing required field.'` when `stakedSuiId` or `signer` is falsy,
before building or broadcasting anything; otherwise builds the unstake
transaction and signs-and-executes it. -/
def unStakeTokenMutationFn (stakedSuiId : String) (signer : Bool)
    (signOutcome : Except String String) : MutationOutcome :=
  if stakedSuiId = "" ∨ signer = false then
    ⟨[], Except.error "Failed, missing required field."⟩
  else
    ⟨[TxRequest.unstakeTx stakedSuiId], signOutcome⟩

/-- The navigation instruction emitted on success (line 227):
`/receipt?txdigest=<digest>&from=stake`.  The query parameter `from` is the
field `fromTag` (`from` is a Lean keyword). -/
structure Navigation where
  path : String
  txdigest : String
  fromTag : String
  deriving DecidableEq, Repr

/-- The failure toast (lines 235-244): heading `'Unstake failed'` or
`'Stake failed'`, and the underlying message when it is truthy. -/
structure ToastError where
  heading : String
  detail : Option String
  deriving DecidableEq, Repr

/-- Every externally visible effect of one `onHandleSubmit` invocation. -/
structure SubmitEffects where
  broadcasts : List TxRequest
  invalidations : List (List String)
  formReset : Bool
  navigation : Option Navigation
  toastError : Option ToastError
  deriving DecidableEq, Repr

/-- The effects of an invocation that returns early: nothing happens. -/
def emptyEffects : SubmitEffects :=
  ⟨[], [], false, none, none⟩

/-- The tail of `onHandleSubmit`'s `try`/`catch` (lines 206-245): when the
awaited mutation resolved with a digest, invalidate the `['system','state']`
and `['validator']` query keys, reset the form and navigate to the receipt
with `from: 'stake'`; when it threw, show the failure toast and commit
nothing. -/
def settleMutation (unstakeFlag : Bool) (m : MutationOutcome) : SubmitEffects :=
  match m.result with
  | Except.ok d =>
    { broadcasts := m.broadcasts
      invalidations := [["system", "state"], ["validator"]]
      formReset := true
      navigation := some ⟨"/receipt", d, "stake"⟩
      toastError := none }
  | Except.error msg =>
    { broadcasts := m.broadcasts
      invalidations := []
      formReset := false
      navigation := none
      toastError := some ⟨(if unstakeFlag then "Unstake" else "Stake") ++ " failed",
        if msg = "" then none else some msg⟩ }

/-- Handler `onHandleSubmit` (lines 181-259).  Returns silently when
`coinType === null || validatorAddress === null`; parses the amount; on the
unstake path returns silently when the delegation data or a truthy stake id is
missing or the position is `Pending`, else awaits `unStakeToken.mutateAsync`;
on the stake path awaits `stakeToken.mutateAsync`; then settles per
`settleMutation`. -/
def onHandleSubmit (ctx : StakingContext) (amount : String)
    (signOutcome : Except String String) : SubmitEffects :=
  if ctx.coinType = none ∨ ctx.validatorAddress = none then emptyEffects
  else
    let bigIntAmount := parseAmount amount ctx.coinDecimals
    if ctx.unstake then
      match ctx.stakeData, ctx.stakeSuiIdParams with
      | some sd, some sid =>
        if sid = "" ∨ sd.status = StakeStatus.Pending then emptyEffects
        else settleMutation true (unStakeTokenMutationFn sid ctx.signer signOutcome)
      | _, _ => emptyEffects
    else
      settleMutation false
        (stakeTokenMutationFn (ctx.coinType.getD "") bigIntAmount
          (ctx.validatorAddress.getD "") ctx.signer signOutcome)

/-- Memo `delegationId` (lines 106-109): `null` when there is no delegation data or
its status is `'Pending'`, else the staked-Sui object id. -/
def delegationId (stakeData : Option DelegationData) : Option String :=
  match stakeData with
  | none => none
  | some sd => if sd.status = StakeStatus.Pending then none else some sd.stakedSuiId

/-- The submit button's `disabled` prop (lines 365-369):
`!isValid || isSubmitting || (unstake && !delegationId)`. -/
def submitButtonDisabled (isValid isSubmitting : Bool) (ctx : StakingContext) : Bool :=
  !isValid || isSubmitting || (ctx.unstake && !(jsTruthy (delegationId ctx.stakeData)))

/-- What `StakingCard` renders at the guard of line 261: `Navigate to="/"
replace` or the staking form. -/
inductive RenderResult
  | redirect (target : String) (replaceFlag : Bool)
  | card
  deriving DecidableEq, Repr

/-- The render guard (lines 261-263):
`if (!coinType || !validatorAddress || (!validatorsIsloading && !system))`
redirect to the default view, else render the card.  `system` is whether
`useSystemState` returned data. -/
def stakingCardRender (coinType validatorAddress : Option String)
    (validatorsIsloading system : Bool) : RenderResult :=
  if !(jsTruthy coinType) || !(jsTruthy validatorAddress)
      || (!validatorsIsloading && !system) then
    RenderResult.redirect "/" true
  else
    RenderResult.card

/-- State of the form's submission machinery: whether a submission is in
flight (`isSubmitting`) and how many sign-and-broadcast calls have been
issued so far. -/
structure FormMachine where
  isSubmitting : Bool
  broadcastCount : Nat
  deriving DecidableEq, Repr

/-- Modelled from the spec: the Formik form machinery and the form components
wiring `submitForm` to the button are not under `src/`.  Per the spec the
controller is single-threaded with cooperative scheduling, and "a second
`submit` call while the first is not yet `Settled` must be rejected or
ignored": a click on the disabled button (the `disabled` prop embedded from
the source as `submitButtonDisabled`) is ignored; an accepted click marks the
submission in flight before any suspension and runs `onHandleSubmit`. -/
def clickSubmit (isValid : Bool) (ctx : StakingContext) (amount : String)
    (signOutcome : Except String String) (s : FormMachine) : FormMachine :=
  if submitButtonDisabled isValid s.isSubmitting ctx then s
  else
    { isSubmitting := true
      broadcastCount :=
        s.broadcastCount + (onHandleSubmit ctx amount signOutcome).broadcasts.length }

/-- Modelled from the spec: when the in-flight submission settles (success or
failure), the controller returns to `Idle` and a fresh attempt may start. -/
def settleSubmit (s : FormMachine) : FormMachine :=
  { s with isSubmitting := false }

/-- A concrete stake-mode context: SUI coin type, validator `0xV`, 9 decimals,
signer available. -/
def ctxStake : StakingContext :=
  ⟨some "0x2::sui::SUI", some "0xV", none, false, none, 9, true⟩

/-- A concrete unstake-mode context with an `Active` position `S1`. -/
def ctxUnstakeActive : StakingContext :=
  ⟨some "0x2::sui::SUI", some "0xV", some "S1", true,
    some ⟨StakeStatus.Active, "S1", 0⟩, 9, true⟩

/-- A concrete unstake-mode context whose delegation data is absent. -/
def ctxUnstakeNoData : StakingContext :=
  ⟨some "0x2::sui::SUI", some "0xV", some "S1", true, none, 9, true⟩

/-- A concrete unstake-mode context whose position `S1` is still `Pending`. -/
def ctxUnstakePending : StakingContext :=
  ⟨some "0x2::sui::SUI", some "0xV", some "S1", true,
    some ⟨StakeStatus.Pending, "S1", 0⟩, 9, true⟩

/-- Settling never changes the list of broadcasts the mutation issued. -/
theorem settleMutation_broadcasts (u : Bool) (m : MutationOutcome) :
    (settleMutation u m).broadcasts = m.broadcasts := by
  unfold settleMutation
  split <;> rfl

/-- When the mutation resolved with digest `d`, settling invalidates exactly
the two query keys, resets the form and navigates to the receipt. -/
theorem settleMutation_ok (u : Bool) (m : MutationOutcome) (d : String)
    (h : m.result = Except.ok d) :
    (settleMutation u m).invalidations = [["system", "state"], ["validator"]] ∧
    (settleMutation u m).formReset = true ∧
    (settleMutation u m).navigation = some ⟨"/receipt", d, "stake"⟩ := by
  unfold settleMutation
  split <;> simp_all

/-- When the mutation threw, settling commits nothing. -/
theorem settleMutation_error_fields (u : Bool) (m : MutationOutcome) (e : String)
    (h : m.result = Except.error e) :
    (settleMutation u m).invalidations = [] ∧
    (settleMutation u m).navigation = none ∧
    (settleMutation u m).formReset = false := by
  unfold settleMutation
  split <;> simp_all

/-- Settling always emits a navigation or a toast. -/
theorem settleMutation_exit (u : Bool) (m : MutationOutcome) :
    (settleMutation u m).navigation.isSome = true ∨
    (settleMutation u m).toastError.isSome = true := by
  unfold settleMutation
  split <;> simp

/-- When settling emitted a navigation, it is the receipt navigation with
`from: 'stake'`, and the mutation resolved with its digest. -/
theorem settleMutation_navigation (u : Bool) (m : MutationOutcome) (nav : Navigation)
    (h : (settleMutation u m).navigation = some nav) :
    nav.path = "/receipt" ∧ nav.fromTag = "stake" ∧
    m.result = Except.ok nav.txdigest := by
  unfold settleMutation at h
  split at h
  next d heq =>
    have h' : (⟨"/receipt", d, "stake"⟩ : Navigation) = nav := by simpa using h
    subst h'
    exact ⟨rfl, rfl, heq⟩
  next e heq =>
    exact absurd h (by simp)

/-- The stake mutation issues at most one broadcast. -/
theorem stakeFn_broadcasts_len (t : String) (a : Nat) (v : String) (s : Bool)
    (o : Except String String) :
    (stakeTokenMutationFn t a v s o).broadcasts.length ≤ 1 := by
  unfold stakeTokenMutationFn
  split <;> simp

/-- The unstake mutation issues at most one broadcast. -/
theorem unStakeFn_broadcasts_len (sid : String) (s : Bool)
    (o : Except String String) :
    (unStakeTokenMutationFn sid s o).broadcasts.length ≤ 1 := by
  unfold unStakeTokenMutationFn
  split <;> simp

/-- If the stake mutation broadcast anything, its result is the signer's. -/
theorem stakeFn_live (t : String) (a : Nat) (v : String) (s : Bool)
    (o : Except String String)
    (h : (stakeTokenMutationFn t a v s o).broadcasts ≠ []) :
    (stakeTokenMutationFn t a v s o).result = o := by
  unfold stakeTokenMutationFn at h ⊢
  split at h <;> simp_all

/-- If the unstake mutation broadcast anything, its result is the signer's. -/
theorem unStakeFn_live (sid : String) (s : Bool) (o : Except String String)
    (h : (unStakeTokenMutationFn sid s o).broadcasts ≠ []) :
    (unStakeTokenMutationFn sid s o).result = o := by
  unfold unStakeTokenMutationFn at h ⊢
  split at h <;> simp_all

/-- A successful stake-mutation result comes from a successful signer call. -/
theorem stakeFn_ok (t : String) (a : Nat) (v : String) (s : Bool)
    (o : Except String String) (d : String)
    (h : (stakeTokenMutationFn t a v s o).result = Except.ok d) :
    o = Except.ok d := by
  unfold stakeTokenMutationFn at h
  split at h <;> simp_all

/-- A successful unstake-mutation result comes from a successful signer call. -/
theorem unStakeFn_ok (sid : String) (s : Bool) (o : Except String String)
    (d : String)
    (h : (unStakeTokenMutationFn sid s o).result = Except.ok d) :
    o = Except.ok d := by
  unfold unStakeTokenMutationFn at h
  split at h <;> simp_all

/-- Shape of every `onHandleSubmit` run: either an early return with no
effects, or the settlement of one mutation call whose result reflects the
signer outcome. -/
theorem onHandleSubmit_shape (ctx : StakingContext) (amount : String)
    (o : Except String String) :
    onHandleSubmit ctx amount o = emptyEffects ∨
    ∃ u m, onHandleSubmit ctx amount o = settleMutation u m ∧
      m.broadcasts.length ≤ 1 ∧
      (m.broadcasts ≠ [] → m.result = o) ∧
      (∀ d, m.result = Except.ok d → o = Except.ok d) := by
  unfold onHandleSubmit
  split
  · exact Or.inl rfl
  · split
    · split
      · split
        · exact Or.inl rfl
        · exact Or.inr ⟨true, _, rfl, unStakeFn_broadcasts_len _ _ _,
            unStakeFn_live _ _ _, unStakeFn_ok _ _ _⟩
      · exact Or.inl rfl
    · exact Or.inr ⟨false, _, rfl, stakeFn_broadcasts_len _ _ _ _ _,
        stakeFn_live _ _ _ _ _, stakeFn_ok _ _ _ _ _⟩

/-- A button with a submission in flight is disabled. -/
theorem submitButtonDisabled_submitting (isValid : Bool) (ctx : StakingContext) :
    submitButtonDisabled isValid true ctx = true := by
  simp [submitButtonDisabled]

/-- Shape of every unstake-mode `onHandleSubmit` run: an early return with no
effects, or — when the delegation data is present with a truthy stake id and
a non-`Pending` (hence `Active`) status — the settlement of the unstake
mutation for that stake id. -/
theorem onHandleSubmit_unstake_shape (ct va sp : Option String)
    (sdata : Option DelegationData) (dec : Nat) (sg : Bool) (amount : String)
    (o : Except String String) :
    onHandleSubmit ⟨ct, va, sp, true, sdata, dec, sg⟩ amount o = emptyEffects ∨
    ∃ sd sid, sdata = some sd ∧ sp = some sid ∧ sid ≠ "" ∧
      sd.status = StakeStatus.Active ∧
      onHandleSubmit ⟨ct, va, sp, true, sdata, dec, sg⟩ amount o =
        settleMutation true (unStakeTokenMutationFn sid sg o) := by
  unfold onHandleSubmit
  split
  · exact Or.inl rfl
  · split
    · split
      next sd sid hsd hsid =>
        split
        next => exact Or.inl rfl
        next h =>
          push_neg at h
          have hact : sd.status = StakeStatus.Active := by
            cases hst : sd.status
            · exact absurd hst h.2
            · rfl
          exact Or.inr ⟨sd, sid, hsd, hsid, h.1, hact, rfl⟩
      next => exact Or.inl rfl
    · next h => exact absurd rfl h

/-- C1: For every successful submission, whether the mode is stake or unstake,
the emitted navigation instruction targets `/receipt` with query parameter
`from` set to the literal string `stake` (never `unstake`), together with
`txdigest` set to the transaction digest. -/
theorem c1_receipt_from_stake (ctx : StakingContext) (amount : String)
    (signOutcome : Except String String) (nav : Navigation)
    (h : (onHandleSubmit ctx amount signOutcome).navigation = some nav) :
    nav.path = "/receipt" ∧ nav.fromTag = "stake" ∧
    signOutcome = Except.ok nav.txdigest := by
  rcases onHandleSubmit_shape ctx amount signOutcome with he | ⟨u, m, he, -, -, hok⟩
  · rw [he] at h
    exact absurd h (by simp [emptyEffects])
  · rw [he] at h
    obtain ⟨hp, hf, hr⟩ := settleMutation_navigation u m nav h
    exact ⟨hp, hf, hok nav.txdigest hr⟩

/-- Witness for C1 at a concrete successful unstake submission. -/
theorem c1_receipt_from_stake_w :
    (Navigation.mk "/receipt" "D" "stake").path = "/receipt" ∧
    (Navigation.mk "/receipt" "D" "stake").fromTag = "stake" ∧
    (Except.ok "D" : Except String String) =
      Except.ok (Navigation.mk "/receipt" "D" "stake").txdigest :=
  c1_receipt_from_stake ctxUnstakeActive "1" (Except.ok "D")
    ⟨"/receipt", "D", "stake"⟩ rfl

/-- C2: issuing `submit` a second time while the first submission has not yet
settled performs exactly one signer/broadcast call, not two: a second click is
ignored (the two-click machine state equals the one-click state), and any one
accepted submission issues at most one broadcast. -/
theorem c2_single_flight :
    (∀ (s : FormMachine) (isValid : Bool) (ctx : StakingContext) (amount : String)
        (signOutcome : Except String String),
      clickSubmit isValid ctx amount signOutcome
          (clickSubmit isValid ctx amount signOutcome s) =
        clickSubmit isValid ctx amount signOutcome s) ∧
    (∀ (ctx : StakingContext) (amount : String) (signOutcome : Except String String),
      (onHandleSubmit ctx amount signOutcome).broadcasts.length ≤ 1) := by
  constructor
  · intro s isValid ctx amount signOutcome
    by_cases h : submitButtonDisabled isValid s.isSubmitting ctx
    · simp [clickSubmit, h]
    · simp [clickSubmit, h, submitButtonDisabled_submitting]
  · intro ctx amount signOutcome
    rcases onHandleSubmit_shape ctx amount signOutcome with he | ⟨u, m, he, hlen, -, -⟩
    · simp [he, emptyEffects]
    · simpa [he, settleMutation_broadcasts] using hlen

/-- C3: when the sign-and-broadcast step fails, no cache invalidation is
issued, no navigation is emitted, the form is not reset, and the controller
returns to an idle state from which a fresh submission attempt runs. -/
theorem c3_failure_no_commit :
    (∀ (ctx : StakingContext) (amount msg : String),
      (onHandleSubmit ctx amount (Except.error msg)).invalidations = [] ∧
      (onHandleSubmit ctx amount (Except.error msg)).navigation = none ∧
      (onHandleSubmit ctx amount (Except.error msg)).formReset = false) ∧
    (∀ s : FormMachine, (settleSubmit s).isSubmitting = false) ∧
    (∀ (ct va sp : Option String) (sd : Option DelegationData) (dec : Nat)
        (sg : Bool) (amount : String) (o : Except String String) (c : Nat),
      clickSubmit true ⟨ct, va, sp, false, sd, dec, sg⟩ amount o
          (settleSubmit ⟨true, c⟩) =
        ⟨true, c + (onHandleSubmit ⟨ct, va, sp, false, sd, dec, sg⟩
          amount o).broadcasts.length⟩) := by
  refine ⟨?_, ?_, ?_⟩
  · intro ctx amount msg
    rcases onHandleSubmit_shape ctx amount (Except.error msg) with he | ⟨u, m, he, -, -, hok⟩
    · simp [he, emptyEffects]
    · rw [he]
      rcases hm : m.result with d | e
      · obtain ⟨-, -, hnav⟩ := settleMutation_error_fields u m d hm
        exact ⟨(settleMutation_error_fields u m d hm).1,
          (settleMutation_error_fields u m d hm).2.1, hnav⟩
      · exact absurd (hok e hm) (by simp)
  · intro s
    rfl
  · intro ct va sp sd dec sg amount o c
    simp [clickSubmit, settleSubmit, submitButtonDisabled]

/-- Counterexample to C4 as stated: a concrete unstake-mode invocation with no
delegation data passes the first guard, then returns silently, emitting
neither a navigation nor an error message. -/
theorem c4_counterexample_silent_return :
    (onHandleSubmit ctxUnstakeNoData "1" (Except.ok "D")).navigation = none ∧
    (onHandleSubmit ctxUnstakeNoData "1" (Except.ok "D")).toastError = none :=
  ⟨rfl, rfl⟩

/-- C4 (amended): every invocation of the submit handler whose early-return
guards pass — coin type and validator address present, and in unstake mode
delegation data with a truthy stake id and a non-`Pending` status — terminates
in either a navigation emission (success) or an error message presented to the
operator (failure). -/
theorem c4_guarded_no_silent_exit (ctx : StakingContext) (amount : String)
    (signOutcome : Except String String)
    (hct : ctx.coinType ≠ none) (hva : ctx.validatorAddress ≠ none)
    (hun : ctx.unstake = true →
      ∃ sd sid, ctx.stakeData = some sd ∧ ctx.stakeSuiIdParams = some sid ∧
        sid ≠ "" ∧ sd.status ≠ StakeStatus.Pending) :
    (onHandleSubmit ctx amount signOutcome).navigation.isSome = true ∨
    (onHandleSubmit ctx amount signOutcome).toastError.isSome = true := by
  unfold onHandleSubmit
  split
  next hg => exact absurd hg (by simp [hct, hva])
  next =>
    split
    next hu =>
      obtain ⟨sd, sid, hsd, hsid, hne, hnp⟩ := hun hu
      rw [hsd, hsid]
      simp only []
      split
      next hbad => exact absurd hbad (by simp [hne, hnp])
      next => exact settleMutation_exit _ _
    next => exact settleMutation_exit _ _

/-- Witness for C4 (amended) at a concrete stake-mode submission. -/
theorem c4_guarded_no_silent_exit_w :
    (onHandleSubmit ctxStake "2" (Except.ok "D")).navigation.isSome = true ∨
    (onHandleSubmit ctxStake "2" (Except.ok "D")).toastError.isSome = true :=
  c4_guarded_no_silent_exit ctxStake "2" (Except.ok "D") (by decide) (by decide)
    (fun h => nomatch h)

/-- C5: in unstake mode a withdraw transaction is broadcast only for a
position whose status is `Active` (and whose stake id is present), and when
the position is `Pending` or absent (or the stake id is absent, in which case
the component derives no delegation data) the submit button is disabled. -/
theorem c5_unstake_requires_active :
    (∀ (ctx : StakingContext) (amount : String) (signOutcome : Except String String),
      ctx.unstake = true →
      (onHandleSubmit ctx amount signOutcome).broadcasts ≠ [] →
      ∃ sd sid, ctx.stakeData = some sd ∧ sd.status = StakeStatus.Active ∧
        ctx.stakeSuiIdParams = some sid ∧
        (onHandleSubmit ctx amount signOutcome).broadcasts =
          [TxRequest.unstakeTx sid]) ∧
    (∀ (isValid isSubmitting : Bool) (ctx : StakingContext),
      ctx.unstake = true →
      (ctx.stakeSuiIdParams = none → ctx.stakeData = none) →
      (ctx.stakeData = none ∨
        (∃ sd, ctx.stakeData = some sd ∧ sd.status = StakeStatus.Pending) ∨
        ctx.stakeSuiIdParams = none) →
      submitButtonDisabled isValid isSubmitting ctx = true) := by
  constructor
  · intro ctx amount signOutcome hu hne
    obtain ⟨ct, va, sp, un, sdata, dec, sg⟩ := ctx
    replace hu : un = true := hu
    subst hu
    rcases onHandleSubmit_unstake_shape ct va sp sdata dec sg amount signOutcome with
      he | ⟨sd, sid, hsd, hsid, hsid0, hact, he⟩
    · rw [he] at hne
      exact absurd rfl hne
    · refine ⟨sd, sid, hsd, hact, hsid, ?_⟩
      rw [he] at hne ⊢
      rw [settleMutation_broadcasts] at hne ⊢
      unfold unStakeTokenMutationFn at hne ⊢
      split at hne
      next => exact absurd rfl hne
      next h =>
        rw [if_neg h]
  · intro isValid isSubmitting ctx hu hcoh hdis
    have hnone : delegationId ctx.stakeData = none := by
      rcases hdis with h | ⟨sd, hsd, hp⟩ | h
      · simp [delegationId, h]
      · simp [delegationId, hsd, hp]
      · simp [delegationId, hcoh h]
    simp [submitButtonDisabled, hu, hnone, jsTruthy]

/-- Witness for C5: the `Active` position broadcasts its withdraw request; the
`Pending` position has the submit button disabled. -/
theorem c5_unstake_requires_active_w :
    (∃ sd sid, ctxUnstakeActive.stakeData = some sd ∧
      sd.status = StakeStatus.Active ∧
      ctxUnstakeActive.stakeSuiIdParams = some sid ∧
      (onHandleSubmit ctxUnstakeActive "1" (Except.ok "D")).broadcasts =
        [TxRequest.unstakeTx sid]) ∧
    submitButtonDisabled true false ctxUnstakePending = true :=
  ⟨c5_unstake_requires_active.1 ctxUnstakeActive "1" (Except.ok "D") rfl
      (by decide),
    c5_unstake_requires_active.2 true false ctxUnstakePending rfl
      (fun h => absurd h (by decide))
      (Or.inr (Or.inl ⟨⟨StakeStatus.Pending, "S1", 0⟩, rfl, rfl⟩))⟩

/-- C6: a submission that settles successfully invalidates exactly the cache
keys `["system","state"]` and `["validator"]`, resets the form, and navigates
to the receipt view carrying the transaction digest. -/
theorem c6_success_reconciliation (ctx : StakingContext) (amount d : String)
    (h : (onHandleSubmit ctx amount (Except.ok d)).broadcasts ≠ []) :
    (onHandleSubmit ctx amount (Except.ok d)).invalidations =
        [["system", "state"], ["validator"]] ∧
    (onHandleSubmit ctx amount (Except.ok d)).formReset = true ∧
    (onHandleSubmit ctx amount (Except.ok d)).navigation =
      some ⟨"/receipt", d, "stake"⟩ := by
  rcases onHandleSubmit_shape ctx amount (Except.ok d) with he | ⟨u, m, he, -, hlive, -⟩
  · rw [he] at h
    exact absurd rfl h
  · rw [he] at h ⊢
    rw [settleMutation_broadcasts] at h
    exact settleMutation_ok u m d (hlive h)

/-- Witness for C6 at a concrete successful stake submission. -/
theorem c6_success_reconciliation_w :
    (onHandleSubmit ctxStake "2" (Except.ok "D")).invalidations =
        [["system", "state"], ["validator"]] ∧
    (onHandleSubmit ctxStake "2" (Except.ok "D")).formReset = true ∧
    (onHandleSubmit ctxStake "2" (Except.ok "D")).navigation =
      some ⟨"/receipt", "D", "stake"⟩ :=
  c6_success_reconciliation ctxStake "2" "D" (by decide)

/-- C7: a submission request with missing fields for its mode (stake:
validator address, amount, coin type; unstake: stake id) or with no signer is
rejected with the mutation's precondition error before any transaction is
built or broadcast. -/
theorem c7_mutation_preconditions :
    (∀ (tokenTypeArg : String) (amount : Nat) (validatorAddress : String)
        (signer : Bool) (signOutcome : Except String String),
      validatorAddress = "" ∨ amount = 0 ∨ tokenTypeArg = "" ∨ signer = false →
      stakeTokenMutationFn tokenTypeArg amount validatorAddress signer signOutcome =
        ⟨[], Except.error "Failed, missing required field"⟩) ∧
    (∀ (stakedSuiId : String) (signer : Bool) (signOutcome : Except String String),
      stakedSuiId = "" ∨ signer = false →
      unStakeTokenMutationFn stakedSuiId signer signOutcome =
        ⟨[], Except.error "Failed, missing required field."⟩) := by
  constructor
  · intro tokenTypeArg amount validatorAddress signer signOutcome h
    unfold stakeTokenMutationFn
    rw [if_pos h]
  · intro stakedSuiId signer signOutcome h
    unfold unStakeTokenMutationFn
    rw [if_pos h]

/-- Witness for C7: a zero amount and an empty stake id are both rejected. -/
theorem c7_mutation_preconditions_w :
    stakeTokenMutationFn "0x2::sui::SUI" 0 "0xV" true (Except.ok "D") =
      ⟨[], Except.error "Failed, missing required field"⟩ ∧
    unStakeTokenMutationFn "" true (Except.ok "D") =
      ⟨[], Except.error "Failed, missing required field."⟩ :=
  ⟨c7_mutation_preconditions.1 "0x2::sui::SUI" 0 "0xV" true (Except.ok "D")
      (Or.inr (Or.inl rfl)),
    c7_mutation_preconditions.2 "" true (Except.ok "D") (Or.inl rfl)⟩

/-- C8: when the coin type or the validator address is absent (JS-falsy), the
component renders a redirect to the default view `/` instead of the staking
form. -/
theorem c8_missing_params_redirect (coinType validatorAddress : Option String)
    (validatorsIsloading system : Bool)
    (h : jsTruthy coinType = false ∨ jsTruthy validatorAddress = false) :
    stakingCardRender coinType validatorAddress validatorsIsloading system =
      RenderResult.redirect "/" true := by
  unfold stakingCardRender
  rcases h with h | h <;> simp [h]

/-- Witness for C8 with the validator address missing. -/
theorem c8_missing_params_redirect_w :
    stakingCardRender (some "0x2::sui::SUI") none false true =
      RenderResult.redirect "/" true :=
  c8_missing_params_redirect (some "0x2::sui::SUI") none false true
    (Or.inr rfl)

/-- C9: the protocol minimum stake is hard-coded as `parseAmount('1',
coinDecimals)` — one whole coin scaled by the coin's display decimals — so for
SUI at 9 decimals it is 1_000_000_000 smallest units. -/
theorem c9_minimum_stake :
    minimumStake 9 = 1000000000 ∧ ∀ d : Nat, minimumStake d = 10 ^ d := by
  constructor
  · rfl
  · intro d
    have h : minimumStake d = 1 * 10 ^ d := rfl
    simpa using h

/-- C10: in unstake mode the submitted transaction is independent of the
free-text amount: any two amount strings produce identical submit effects,
since the unstake request is built from the stake identifier alone. -/
theorem c10_unstake_amount_independent (ctx : StakingContext) (a1 a2 : String)
    (signOutcome : Except String String) (hu : ctx.unstake = true) :
    onHandleSubmit ctx a1 signOutcome = onHandleSubmit ctx a2 signOutcome := by
  unfold onHandleSubmit
  split
  · rfl
  · simp [hu]

/-- Witness for C10: two very different amount strings give the same run. -/
theorem c10_unstake_amount_independent_w :
    onHandleSubmit ctxUnstakeActive "1" (Except.ok "D") =
      onHandleSubmit ctxUnstakeActive "999.5" (Except.ok "D") :=
  c10_unstake_amount_independent ctxUnstakeActive "1" "999.5"
    (Except.ok "D") rfl
